import Mathlib

/-!
Verification development for the CodeToImage repository.

The repository converts a single Python source file into a static HTML
document with Monokai syntax highlighting.  Two front ends exist:

* `src/highlight.py` - a CLI (`generate_html` plus `main`);
* `src/gui_highlighter.py` - a PyQt6 window (`HighlighterWindow.generate_html`,
  `HighlighterWindow.process_file`, `DropZoneWidget.dropEvent`).

This file shallowly embeds the transform and file-handling logic of both
front ends.  The filesystem is modelled as an association list from path
strings to decoded UTF-8 text contents; writing shadows earlier entries,
matching `open(path, "w")` create-or-truncate semantics.  The external
Pygments lexer and the Python `pathlib` / `os.path` routines the code calls
are modelled as noted on their definitions.
-/

set_option maxRecDepth 4096

/-- The lines of the `MONOKAI_CSS` constant of `highlight.py` (lines 16-139),
transcribed verbatim. -/
def monokaiCssLines : List String :=
  ["",
   "/* Main style */",
   "body \x7b",
   "    font-family: \x27Fira Code\x27, \x27Consolas\x27, \x27Monaco\x27, \x27Courier New\x27, monospace;",
   "    background-color: #272822;",
   "    color: #f8f8f2;",
   "    margin: 0;",
   "    padding: 20px;",
   "    line-height: 1.6;",
   "\x7d",
   "",
   "/* Code container */",
   ".code-container \x7b",
   "    background-color: #272822;",
   "    border-radius: 8px;",
   "    box-shadow: 0 4px 6px rgba(0, 0, 0, 0.3);",
   "    overflow: hidden;",
   "    max-width: 100%;",
   "    margin: 0 auto;",
   "\x7d",
   "",
   "/* File header */",
   ".file-header \x7b",
   "    background-color: #1e1f1c;",
   "    padding: 10px 15px;",
   "    border-bottom: 1px solid #3e3d32;",
   "    color: #75715e;",
   "    font-size: 14px;",
   "    font-weight: bold;",
   "\x7d",
   "",
   "/* Scroll */",
   ".code-wrapper \x7b",
   "    overflow-x: auto;",
   "    padding: 20px;",
   "\x7d",
   "",
   "/* Table with line numbers */",
   ".highlight table \x7b",
   "    border-spacing: 0;",
   "    border-collapse: separate;",
   "    width: 100%;",
   "\x7d",
   "",
   ".highlight pre \x7b",
   "    margin: 0;",
   "    padding: 0;",
   "    background: none;",
   "    font-size: 14px;",
   "\x7d",
   "",
   "/* Line numbers */",
   ".highlight td.linenos \x7b",
   "    padding-right: 15px;",
   "    color: #90908a;",
   "    text-align: right;",
   "    user-select: none;",
   "    border-right: 1px solid #3e3d32;",
   "\x7d",
   "",
   ".highlight td.code \x7b",
   "    padding-left: 15px;",
   "\x7d",
   "",
   "/* Code highlighting styles (Monokai) */",
   ".highlight .c \x7b color: #75715e \x7d /* Comment */",
   ".highlight .err \x7b color: #960050; background-color: #1e0010 \x7d /* Error */",
   ".highlight .k \x7b color: #66d9ef \x7d /* Keyword */",
   ".highlight .l \x7b color: #ae81ff \x7d /* Literal */",
   ".highlight .n \x7b color: #f8f8f2 \x7d /* Name */",
   ".highlight .o \x7b color: #f92672 \x7d /* Operator */",
   ".highlight .p \x7b color: #f8f8f2 \x7d /* Punctuation */",
   ".highlight .cm \x7b color: #75715e \x7d /* Comment.Multiline */",
   ".highlight .cp \x7b color: #75715e \x7d /* Comment.Preproc */",
   ".highlight .c1 \x7b color: #75715e \x7d /* Comment.Single */",
   ".highlight .cs \x7b color: #75715e \x7d /* Comment.Special */",
   ".highlight .ge \x7b font-style: italic \x7d /* Generic.Emph */",
   ".highlight .gs \x7b font-weight: bold \x7d /* Generic.Strong */",
   ".highlight .kc \x7b color: #66d9ef \x7d /* Keyword.Constant */",
   ".highlight .kd \x7b color: #66d9ef \x7d /* Keyword.Declaration */",
   ".highlight .kn \x7b color: #f92672 \x7d /* Keyword.Namespace */",
   ".highlight .kp \x7b color: #66d9ef \x7d /* Keyword.Pseudo */",
   ".highlight .kr \x7b color: #66d9ef \x7d /* Keyword.Reserved */",
   ".highlight .kt \x7b color: #66d9ef \x7d /* Keyword.Type */",
   ".highlight .ld \x7b color: #e6db74 \x7d /* Literal.Date */",
   ".highlight .m \x7b color: #ae81ff \x7d /* Literal.Number */",
   ".highlight .s \x7b color: #e6db74 \x7d /* Literal.String */",
   ".highlight .na \x7b color: #a6e22e \x7d /* Name.Attribute */",
   ".highlight .nb \x7b color: #f8f8f2 \x7d /* Name.Builtin */",
   ".highlight .nc \x7b color: #a6e22e \x7d /* Name.Class */",
   ".highlight .no \x7b color: #66d9ef \x7d /* Name.Constant */",
   ".highlight .nd \x7b color: #a6e22e \x7d /* Name.Decorator */",
   ".highlight .ni \x7b color: #f8f8f2 \x7d /* Name.Entity */",
   ".highlight .ne \x7b color: #a6e22e \x7d /* Name.Exception */",
   ".highlight .nf \x7b color: #a6e22e \x7d /* Name.Function */",
   ".highlight .nl \x7b color: #f8f8f2 \x7d /* Name.Label */",
   ".highlight .nn \x7b color: #f8f8f2 \x7d /* Name.Namespace */",
   ".highlight .nx \x7b color: #a6e22e \x7d /* Name.Other */",
   ".highlight .py \x7b color: #f8f8f2 \x7d /* Name.Property */",
   ".highlight .nt \x7b color: #f92672 \x7d /* Name.Tag */",
   ".highlight .nv \x7b color: #f8f8f2 \x7d /* Name.Variable */",
   ".highlight .ow \x7b color: #f92672 \x7d /* Operator.Word */",
   ".highlight .w \x7b color: #f8f8f2 \x7d /* Text.Whitespace */",
   ".highlight .mf \x7b color: #ae81ff \x7d /* Literal.Number.Float */",
   ".highlight .mh \x7b color: #ae81ff \x7d /* Literal.Number.Hex */",
   ".highlight .mi \x7b color: #ae81ff \x7d /* Literal.Number.Integer */",
   ".highlight .mo \x7b color: #ae81ff \x7d /* Literal.Number.Oct */",
   ".highlight .sb \x7b color: #e6db74 \x7d /* Literal.String.Backtick */",
   ".highlight .sc \x7b color: #e6db74 \x7d /* Literal.String.Char */",
   ".highlight .sd \x7b color: #e6db74 \x7d /* Literal.String.Doc */",
   ".highlight .s2 \x7b color: #e6db74 \x7d /* Literal.String.Double */",
   ".highlight .se \x7b color: #ae81ff \x7d /* Literal.String.Escape */",
   ".highlight .sh \x7b color: #e6db74 \x7d /* Literal.String.Heredoc */",
   ".highlight .si \x7b color: #e6db74 \x7d /* Literal.String.Interpol */",
   ".highlight .sx \x7b color: #e6db74 \x7d /* Literal.String.Other */",
   ".highlight .sr \x7b color: #e6db74 \x7d /* Literal.String.Regex */",
   ".highlight .s1 \x7b color: #e6db74 \x7d /* Literal.String.Single */",
   ".highlight .ss \x7b color: #e6db74 \x7d /* Literal.String.Symbol */",
   ".highlight .bp \x7b color: #f8f8f2 \x7d /* Name.Builtin.Pseudo */",
   ".highlight .vc \x7b color: #f8f8f2 \x7d /* Name.Variable.Class */",
   ".highlight .vg \x7b color: #f8f8f2 \x7d /* Name.Variable.Global */",
   ".highlight .vi \x7b color: #f8f8f2 \x7d /* Name.Variable.Instance */",
   ".highlight .il \x7b color: #ae81ff \x7d /* Literal.Number.Integer.Long */",
   ""]

/-- The lines of the `MONOKAI_CSS` constant of `gui_highlighter.py` (lines
22-145), transcribed verbatim. -/
def guiMonokaiCssLines : List String :=
  ["",
   "/* Main style */",
   "body \x7b",
   "    font-family: \x27Fira Code\x27, \x27Consolas\x27, \x27Monaco\x27, \x27Courier New\x27, monospace;",
   "    background-color: #272822;",
   "    color: #f8f8f2;",
   "    margin: 0;",
   "    padding: 20px;",
   "    line-height: 1.6;",
   "\x7d",
   "",
   "/* Code container */",
   ".code-container \x7b",
   "    background-color: #272822;",
   "    border-radius: 8px;",
   "    box-shadow: 0 4px 6px rgba(0, 0, 0, 0.3);",
   "    overflow: hidden;",
   "    max-width: 100%;",
   "    margin: 0 auto;",
   "\x7d",
   "",
   "/* File header */",
   ".file-header \x7b",
   "    background-color: #1e1f1c;",
   "    padding: 10px 15px;",
   "    border-bottom: 1px solid #3e3d32;",
   "    color: #75715e;",
   "    font-size: 14px;",
   "    font-weight: bold;",
   "\x7d",
   "",
   "/* Scroll */",
   ".code-wrapper \x7b",
   "    overflow-x: auto;",
   "    padding: 20px;",
   "\x7d",
   "",
   "/* Table with line numbers */",
   ".highlight table \x7b",
   "    border-spacing: 0;",
   "    border-collapse: separate;",
   "    width: 100%;",
   "\x7d",
   "",
   ".highlight pre \x7b",
   "    margin: 0;",
   "    padding: 0;",
   "    background: none;",
   "    font-size: 14px;",
   "\x7d",
   "",
   "/* Line numbers */",
   ".highlight td.linenos \x7b",
   "    padding-right: 15px;",
   "    color: #90908a;",
   "    text-align: right;",
   "    user-select: none;",
   "    border-right: 1px solid #3e3d32;",
   "\x7d",
   "",
   ".highlight td.code \x7b",
   "    padding-left: 15px;",
   "\x7d",
   "",
   "/* Code highlighting styles (Monokai) */",
   ".highlight .c \x7b color: #75715e \x7d",
   ".highlight .err \x7b color: #960050; background-color: #1e0010 \x7d",
   ".highlight .k \x7b color: #66d9ef \x7d",
   ".highlight .l \x7b color: #ae81ff \x7d",
   ".highlight .n \x7b color: #f8f8f2 \x7d",
   ".highlight .o \x7b color: #f92672 \x7d",
   ".highlight .p \x7b color: #f8f8f2 \x7d",
   ".highlight .cm \x7b color: #75715e \x7d",
   ".highlight .cp \x7b color: #75715e \x7d",
   ".highlight .c1 \x7b color: #75715e \x7d",
   ".highlight .cs \x7b color: #75715e \x7d",
   ".highlight .ge \x7b font-style: italic \x7d",
   ".highlight .gs \x7b font-weight: bold \x7d",
   ".highlight .kc \x7b color: #66d9ef \x7d",
   ".highlight .kd \x7b color: #66d9ef \x7d",
   ".highlight .kn \x7b color: #f92672 \x7d",
   ".highlight .kp \x7b color: #66d9ef \x7d",
   ".highlight .kr \x7b color: #66d9ef \x7d",
   ".highlight .kt \x7b color: #66d9ef \x7d",
   ".highlight .ld \x7b color: #e6db74 \x7d",
   ".highlight .m \x7b color: #ae81ff \x7d",
   ".highlight .s \x7b color: #e6db74 \x7d",
   ".highlight .na \x7b color: #a6e22e \x7d",
   ".highlight .nb \x7b color: #f8f8f2 \x7d",
   ".highlight .nc \x7b color: #a6e22e \x7d",
   ".highlight .no \x7b color: #66d9ef \x7d",
   ".highlight .nd \x7b color: #a6e22e \x7d",
   ".highlight .ni \x7b color: #f8f8f2 \x7d",
   ".highlight .ne \x7b color: #a6e22e \x7d",
   ".highlight .nf \x7b color: #a6e22e \x7d",
   ".highlight .nl \x7b color: #f8f8f2 \x7d",
   ".highlight .nn \x7b color: #f8f8f2 \x7d",
   ".highlight .nx \x7b color: #a6e22e \x7d",
   ".highlight .py \x7b color: #f8f8f2 \x7d",
   ".highlight .nt \x7b color: #f92672 \x7d",
   ".highlight .nv \x7b color: #f8f8f2 \x7d",
   ".highlight .ow \x7b color: #f92672 \x7d",
   ".highlight .w \x7b color: #f8f8f2 \x7d",
   ".highlight .mf \x7b color: #ae81ff \x7d",
   ".highlight .mh \x7b color: #ae81ff \x7d",
   ".highlight .mi \x7b color: #ae81ff \x7d",
   ".highlight .mo \x7b color: #ae81ff \x7d",
   ".highlight .sb \x7b color: #e6db74 \x7d",
   ".highlight .sc \x7b color: #e6db74 \x7d",
   ".highlight .sd \x7b color: #e6db74 \x7d",
   ".highlight .s2 \x7b color: #e6db74 \x7d",
   ".highlight .se \x7b color: #ae81ff \x7d",
   ".highlight .sh \x7b color: #e6db74 \x7d",
   ".highlight .si \x7b color: #e6db74 \x7d",
   ".highlight .sx \x7b color: #e6db74 \x7d",
   ".highlight .sr \x7b color: #e6db74 \x7d",
   ".highlight .s1 \x7b color: #e6db74 \x7d",
   ".highlight .ss \x7b color: #e6db74 \x7d",
   ".highlight .bp \x7b color: #f8f8f2 \x7d",
   ".highlight .vc \x7b color: #f8f8f2 \x7d",
   ".highlight .vg \x7b color: #f8f8f2 \x7d",
   ".highlight .vi \x7b color: #f8f8f2 \x7d",
   ".highlight .il \x7b color: #ae81ff \x7d",
   ""]

/-- Join lines with newline separators, inverse of splitting a text into
lines. -/
def joinLines : List String -> String
  | [] => ""
  | [l] => l
  | l :: ls => l ++ "\n" ++ joinLines ls

/-- The `MONOKAI_CSS` string constant of `highlight.py` (lines 16-139). -/
def MONOKAI_CSS : String :=
  joinLines monokaiCssLines

/-- The `MONOKAI_CSS` string constant of `gui_highlighter.py` (lines 22-145);
the GUI front end has its own copy of the stylesheet. -/
def guiMonokaiCss : String :=
  joinLines guiMonokaiCssLines

/-- Fixed segment 0 of the f-string HTML document template (identical in
`highlight.py` lines 173-192 and `gui_highlighter.py` lines 418-437). -/
def tmpl0 : String :=
  "<!DOCTYPE html>\n<html lang=\"en\">\n<head>\n    <meta charset=\"UTF-8\">\n    <meta name=\"viewport\" content=\"width=device-width, initial-scale=1.0\">\n    <title>"

/-- Fixed segment 1 of the f-string HTML document template (identical in
`highlight.py` lines 173-192 and `gui_highlighter.py` lines 418-437). -/
def tmpl1 : String :=
  " - Python Code</title>\n    <link href=\"https://fonts.googleapis.com/css2?family=Fira+Code:wght@400;500&display=swap\" rel=\"stylesheet\">\n    <style>\n        "

/-- Fixed segment 2 of the f-string HTML document template (identical in
`highlight.py` lines 173-192 and `gui_highlighter.py` lines 418-437). -/
def tmpl2 : String :=
  "\n    </style>\n</head>\n<body>\n    <div class=\"code-container\">\n        <div class=\"file-header\">"

/-- Fixed segment 3 of the f-string HTML document template (identical in
`highlight.py` lines 173-192 and `gui_highlighter.py` lines 418-437). -/
def tmpl3 : String :=
  "</div>\n        <div class=\"code-wrapper\">\n            "

/-- Fixed segment 4 of the f-string HTML document template (identical in
`highlight.py` lines 173-192 and `gui_highlighter.py` lines 418-437). -/
def tmpl4 : String :=
  "\n        </div>\n    </div>\n</body>\n</html>"

/-- Split a character list at every occurrence of the separator. -/
def splitOnChar (sep : Char) : List Char → List (List Char)
  | [] => [[]]
  | c :: cs =>
    if c = sep then [] :: splitOnChar sep cs
    else
      match splitOnChar sep cs with
      | [] => [[c]]
      | g :: gs => (c :: g) :: gs

/-- Modelled from `os.path.basename`: the part of the path after the last slash. -/
def basename (p : String) : String :=
  String.mk ((splitOnChar '/' p.data).getLastD [])

/-- Modelled from `pathlib.PurePosixPath`: the root of a POSIX path string
(a double leading slash is kept as-is, three or more collapse to one). -/
def posixRoot (p : String) : String :=
  if p.data.take 3 = ['/', '/', '/'] then "/"
  else if p.data.take 2 = ['/', '/'] then "//"
  else if p.data.take 1 = ['/'] then "/"
  else ""

/-- Modelled from `pathlib.PurePosixPath`: the non-root path components
(empty components and single dots are dropped, as pathlib does). -/
def posixComponents (p : String) : List (List Char) :=
  (splitOnChar '/' p.data).filter (fun l => !(l.isEmpty || l == ['.']))

/-- Modelled from `pathlib.PurePosixPath.__str__`: join root and components. -/
def pathJoin (root : String) (comps : List (List Char)) : String :=
  if comps.isEmpty then (if root = "" then "." else root)
  else root ++ String.intercalate "/" (comps.map String.mk)

/-- Index of the last dot in a character list, if any. -/
def lastDotIdx : List Char → Option Nat
  | [] => none
  | c :: cs =>
    match lastDotIdx cs with
    | some i => some (i + 1)
    | none => if c = '.' then some 0 else none

/-- Modelled from `pathlib.PurePath.with_suffix` acting on the final
component: the old suffix (a dot-started tail that starts strictly after the
first character and before the last) is cut off, then `sfx` is appended. -/
def nameWithSuffix (name : List Char) (sfx : List Char) : List Char :=
  match lastDotIdx name with
  | some i => if 0 < i && i + 1 < name.length then name.take i ++ sfx else name ++ sfx
  | none => name ++ sfx

/-- Modelled from `str(pathlib.Path(p).with_suffix(sfx))`.  Returns `none`
when the path has an empty final name, where pathlib raises `ValueError`. -/
def pathWithSuffix (p : String) (sfx : String) : Option String :=
  let comps := posixComponents p
  match comps.getLast? with
  | none => none
  | some name =>
    some (pathJoin (posixRoot p) (comps.dropLast ++ [nameWithSuffix name sfx.data]))

/-- Modelled from Python `str.endswith`. -/
def endswith (s sfx : String) : Bool :=
  sfx.data.isSuffixOf s.data

/-- Lexical categories of the modelled lexer (spec section 4.1: lexical
category tags, with `err` as the fallback class for unrecognized spans). -/
inductive TokType where
  | kw
  | ident
  | num
  | strlit
  | commentTok
  | opTok
  | ws
  | err
deriving DecidableEq

/-- Modelled from the spec: character classification of the external
tokenizer (spec sections 4.1 and 6); characters outside every recognized
class fall back to the `err` category. -/
def classifyChar (c : Char) : TokType :=
  if c.isAlphanum || c = '_' then .ident
  else if c.isWhitespace then .ws
  else if c = '#' then .commentTok
  else if c = '"' || c = Char.ofNat 39 then .strlit
  else if ("+-*/%=<>!&|^~()[],.:;@\x7b\x7d".data.contains c) then .opTok
  else .err

/-- Modelled from the spec: group the input into maximal runs of
equally-classified characters, tagging each run with its category.  The
spans concatenate back to the input, so no text is ever rejected. -/
def groupByClass : List Char → List (TokType × List Char)
  | [] => []
  | c :: cs =>
    match groupByClass cs with
    | [] => [(classifyChar c, [c])]
    | (t, run) :: rest =>
      if classifyChar c == t then (t, c :: run) :: rest
      else (classifyChar c, [c]) :: (t, run) :: rest

/-- The Python keyword list used by the modelled lexer. -/
def pythonKeywords : List String :=
  ["False", "None", "True", "and", "as", "assert", "async", "await", "break",
   "class", "continue", "def", "del", "elif", "else", "except", "finally",
   "for", "from", "global", "if", "in", "is", "lambda", "nonlocal",
   "not", "or", "pass", "raise", "return", "try", "while", "with", "yield",
   "import"]

/-- Modelled from the spec: refine an identifier run into a keyword or a
number where appropriate; the span text is never changed. -/
def adjustType (t : TokType) (s : List Char) : TokType :=
  match t with
  | .ident =>
    if s.all (fun c => c.isDigit) then .num
    else if pythonKeywords.contains (String.mk s) then .kw
    else .ident
  | _ => t

/-- Token post-processing step; keeps the span text intact. -/
def adjustToken (t : TokType × List Char) : TokType × List Char :=
  (adjustType t.1 t.2, t.2)

/-- Modelled from the spec: the tokenizer of the external highlighting
library, total on arbitrary text. -/
def tokenize (code : String) : List (TokType × List Char) :=
  (groupByClass code.data).map adjustToken

/-- Modelled from the Pygments HTML escape: the five reserved characters. -/
def escapeChar (c : Char) : List Char :=
  if c = '&' then "&amp;".data
  else if c = '<' then "&lt;".data
  else if c = '>' then "&gt;".data
  else if c = '"' then "&quot;".data
  else if c = Char.ofNat 39 then "&#39;".data
  else [c]

/-- HTML-escape a string character by character. -/
def htmlEscape (s : String) : String :=
  String.mk ((s.data.map escapeChar).flatten)

/-- Short CSS class name of a lexical category (the `err` class marks
fallback spans). -/
def tokClass : TokType → String
  | .kw => "k"
  | .ident => "n"
  | .num => "mi"
  | .strlit => "s"
  | .commentTok => "c1"
  | .opTok => "o"
  | .ws => "w"
  | .err => "err"

/-- Wrap one token in its styling span. -/
def renderToken (t : TokType × List Char) : String :=
  "<span class=\"" ++ tokClass t.1 ++ "\">" ++ htmlEscape (String.mk t.2) ++ "</span>"

/-- The line-number column contents: one number per source line. -/
def lineNumbers (code : String) : String :=
  String.intercalate "\n"
    ((List.range (splitOnChar '\n' code.data).length).map (fun i => toString (i + 1)))

/-- Modelled from the spec: `pygments.highlight(code, PythonLexer(), HtmlFormatter(style=monokai, linenos=True, cssclass=highlight, hl_lines=[]))` -
the opaque highlighted fragment: a table pairing a line-number column with
the styled token spans (spec sections 3 and 6). -/
def pygmentsHighlight (code : String) : String :=
  "<div class=\"highlight\"><table><tr><td class=\"linenos\"><pre>"
    ++ lineNumbers code
    ++ "</pre></td><td class=\"code\"><pre>"
    ++ String.join ((tokenize code).map renderToken)
    ++ "</pre></td></tr></table></div>\n"

/-- The f-string document template shared verbatim by both front ends:
fixed segments `tmpl0` .. `tmpl4` interleaved with the display name (twice),
the stylesheet, and the highlighted fragment. -/
def htmlTemplate (css displayName highlighted : String) : String :=
  tmpl0 ++ displayName ++ tmpl1 ++ css ++ tmpl2 ++ displayName ++ tmpl3
    ++ highlighted ++ tmpl4

/-- The HTML construction of `generate_html` in `highlight.py` (lines
161-192): highlight the code, then substitute into the template with the
CLI stylesheet. -/
def render (sourceText displayName : String) : String :=
  htmlTemplate MONOKAI_CSS displayName (pygmentsHighlight sourceText)

/-- The HTML construction of `HighlighterWindow.generate_html` in
`gui_highlighter.py` (lines 406-437): same template, GUI stylesheet. -/
def guiRender (sourceText displayName : String) : String :=
  htmlTemplate guiMonokaiCss displayName (pygmentsHighlight sourceText)

/-- The filesystem model: an association list from paths to text contents;
the first matching entry wins. -/
abbrev FS := List (String × String)

/-- Look up a file's contents; `none` models a missing file. -/
def fsRead : FS → String → Option String
  | [], _ => none
  | (q, v) :: rest, p => if p = q then some v else fsRead rest p

/-- Create or overwrite a file, shadowing any earlier entry. -/
def fsWrite (fs : FS) (p v : String) : FS :=
  (p, v) :: fs

/-- Failures of `generate_html`: the `FileNotFoundError` it raises itself,
and any other exception (e.g. the `ValueError` from `with_suffix` on an
empty-name path; the exception text is abbreviated in the model). -/
inductive GenError where
  | notFound (msg : String)
  | processingError (msg : String)
deriving DecidableEq

/-- `generate_html` of `highlight.py` (lines 142-202): check existence,
read, render, derive the output path when none is given, write, and return
the output path. -/
def generate_html (fs : FS) (input_file : String) (output_file : Option String) :
    Except GenError (FS × String) :=
  match fsRead fs input_file with
  | none => .error (.notFound ("File \x27" ++ input_file ++ "\x27 not found"))
  | some code =>
    let html := render code (basename input_file)
    match output_file with
    | some out => .ok (fsWrite fs out html, out)
    | none =>
      match pathWithSuffix input_file ".html" with
      | none => .error (.processingError "empty name")
      | some out => .ok (fsWrite fs out html, out)

/-- Observable outcome of one CLI run: the exit code, the printed lines,
and the resulting filesystem. -/
structure CliResult where
  exitCode : Nat
  stdout : List String
  fs : FS

namespace Highlight

/-- `main` of `highlight.py` (lines 205-223): usage check on the argument
vector (`argv.head` is the program name), then convert and report. -/
def main (fs : FS) (argv : List String) : CliResult :=
  if argv.length < 2 then
    ⟨1, ["Usage: python highlight.py <path_to_file.py>",
         "Example: python highlight.py main.py"], fs⟩
  else
    match generate_html fs (argv.getD 1 "") none with
    | .ok (fs2, out) =>
      ⟨0, ["[+] HTML file successfully created: " ++ out,
           "[+] Open it in a browser to view"], fs2⟩
    | .error (.notFound msg) => ⟨1, ["[-] Error: " ++ msg], fs⟩
    | .error (.processingError msg) => ⟨1, ["[-] An error occurred: " ++ msg], fs⟩

end Highlight

/-- A dialog box shown by the GUI front end. -/
inductive Dialog where
  | warning (title msg : String)
  | critical (title msg : String)
  | question (title msg : String)
deriving DecidableEq

/-- The observable GUI window state: the status label text. -/
structure GuiState where
  status : String
deriving DecidableEq

/-- `HighlighterWindow.generate_html` of `gui_highlighter.py` (lines
400-446): no existence pre-check; `open` itself raises `FileNotFoundError`
on a missing file, the rest matches the CLI variant with the GUI
stylesheet and always-derived output path. -/
def gui_generate_html (fs : FS) (input_file : String) : Except GenError (FS × String) :=
  match fsRead fs input_file with
  | none => .error (.notFound ("No such file or directory: " ++ input_file))
  | some code =>
    let html := guiRender code (basename input_file)
    match pathWithSuffix input_file ".html" with
    | none => .error (.processingError "empty name")
    | some out => .ok (fsWrite fs out html, out)

/-- `HighlighterWindow.process_file` of `gui_highlighter.py` (lines
371-398): run the conversion, catch `FileNotFoundError` distinctly from
other exceptions, update the status label, and show the closing dialog. -/
def process_file (fs : FS) (_st : GuiState) (file_path : String) :
    FS × GuiState × List Dialog :=
  match gui_generate_html fs file_path with
  | .ok (fs2, out) =>
    (fs2, ⟨"Successfully created: " ++ basename out⟩,
     [.question "Success!"
        ("HTML file successfully created:\n" ++ out ++ "\n\nOpen it in browser?")])
  | .error (.notFound _) =>
    (fs, ⟨"Error: file not found"⟩, [.critical "Error" "File not found"])
  | .error (.processingError msg) =>
    (fs, ⟨"Error during processing"⟩,
     [.critical "Error" ("An error occurred:\n" ++ msg)])

/-- `DropZoneWidget.dropEvent` of `gui_highlighter.py` (lines 264-278):
take the first dropped URL; process it only when it ends in `.py`,
otherwise show a warning and change nothing. -/
def dropEvent (fs : FS) (st : GuiState) (urls : List String) :
    FS × GuiState × List Dialog :=
  match urls with
  | [] => (fs, st, [])
  | u :: _ =>
    if endswith u ".py" then process_file fs st u
    else (fs, st, [.warning "Error" "Please select a file with .py extension"])

/-- Cut a CSS line at the start of a block comment. -/
def stripLineComment : List Char → List Char
  | [] => []
  | '/' :: '*' :: _ => []
  | c :: cs => c :: stripLineComment cs

/-- Drop trailing whitespace of a line. -/
def trimRightWs (l : List Char) : List Char :=
  (l.reverse.dropWhile (fun c => c.isWhitespace)).reverse

/-- Comment-and-trailing-whitespace-insensitive view of one stylesheet line:
the block comment and trailing blanks are removed. -/
def normLine (s : String) : String :=
  String.mk (trimRightWs (stripLineComment s.data))

/-- Character-list counterpart of `joinLines`, used to reason about the
joined stylesheet text. -/
def joinLinesCh : List (List Char) → List Char
  | [] => []
  | [l] => l
  | l :: ls => l ++ '\n' :: joinLinesCh ls

/-! ## General helper lemmas -/

theorem fsRead_fsWrite_self (fs : FS) (p v : String) :
    fsRead (fsWrite fs p v) p = some v := by
  simp [fsRead, fsWrite]

theorem fsRead_fsWrite_ne (fs : FS) (p q v : String) (h : q ≠ p) :
    fsRead (fsWrite fs p v) q = fsRead fs q := by
  simp [fsRead, fsWrite, h]

theorem joinLines_data (ls : List String) :
    (joinLines ls).data = joinLinesCh (ls.map String.data) := by
  match ls with
  | [] => rfl
  | [l] => rfl
  | l :: l2 :: ls2 =>
    have ih := joinLines_data (l2 :: ls2)
    simp [joinLines, joinLinesCh, String.data_append, ih, List.append_assoc]

theorem append_newline_inj (x : List Char) : ∀ y xs ys : List Char,
    Char.ofNat 10 ∉ x → Char.ofNat 10 ∉ y →
    x ++ Char.ofNat 10 :: xs = y ++ Char.ofNat 10 :: ys → x = y ∧ xs = ys := by
  induction x with
  | nil =>
    intro y xs ys _ hy h
    cases y with
    | nil => simpa using h
    | cons b y2 =>
      simp only [List.nil_append, List.cons_append, List.cons.injEq] at h
      exact absurd (h.1 ▸ List.mem_cons_self b y2) hy
  | cons a x2 ih =>
    intro y xs ys hx hy h
    cases y with
    | nil =>
      simp only [List.nil_append, List.cons_append, List.cons.injEq] at h
      exact absurd (h.1.symm ▸ List.mem_cons_self a x2) hx
    | cons b y2 =>
      simp only [List.cons_append, List.cons.injEq] at h
      have hx2 : Char.ofNat 10 ∉ x2 := fun hm => hx (List.mem_cons_of_mem a hm)
      have hy2 : Char.ofNat 10 ∉ y2 := fun hm => hy (List.mem_cons_of_mem b hm)
      have h2 := ih y2 xs ys hx2 hy2 h.2
      exact ⟨by rw [h.1, h2.1], h2.2⟩

theorem joinLinesCh_inj : ∀ l1 l2 : List (List Char), l1.length = l2.length →
    (∀ l ∈ l1, Char.ofNat 10 ∉ l) → (∀ l ∈ l2, Char.ofNat 10 ∉ l) →
    joinLinesCh l1 = joinLinesCh l2 → l1 = l2 := by
  intro l1
  induction l1 with
  | nil =>
    intro l2 hlen _ _ _
    cases l2 with
    | nil => rfl
    | cons b bs => exact absurd hlen (by simp)
  | cons a as ih =>
    intro l2 hlen h1 h2 hj
    cases l2 with
    | nil => exact absurd hlen (by simp)
    | cons b bs =>
      cases as with
      | nil =>
        cases bs with
        | nil =>
          simp only [joinLinesCh] at hj
          rw [hj]
        | cons b2 bs2 => exact absurd hlen (by simp)
      | cons a2 as2 =>
        cases bs with
        | nil => exact absurd hlen (by simp)
        | cons b2 bs2 =>
          simp only [joinLinesCh] at hj
          have ha : Char.ofNat 10 ∉ a := h1 a (List.mem_cons_self a _)
          have hb : Char.ofNat 10 ∉ b := h2 b (List.mem_cons_self b _)
          have hsplit := append_newline_inj a b _ _ ha hb hj
          have htail := ih (b2 :: bs2) (by simpa using hlen)
            (fun l hl => h1 l (List.mem_cons_of_mem a hl))
            (fun l hl => h2 l (List.mem_cons_of_mem b hl)) hsplit.2
          rw [hsplit.1, htail]

theorem groupByClass_flatten (l : List Char) :
    ((groupByClass l).map Prod.snd).flatten = l := by
  induction l with
  | nil => rfl
  | cons c cs ih =>
    simp only [groupByClass]
    cases h : groupByClass cs with
    | nil =>
      rw [h] at ih
      simp only [List.map_nil, List.flatten_nil] at ih
      simp [h, ← ih]
    | cons t rest =>
      rw [h] at ih
      cases t with
      | mk ty run =>
        simp only [List.map_cons, List.flatten_cons] at ih
        by_cases hc : (classifyChar c == ty) = true
        · simp [hc, List.flatten_cons, ← ih]
        · simp only [Bool.not_eq_true] at hc
          simp [hc, List.flatten_cons, ← ih]

theorem tokenize_flatten (code : String) :
    ((tokenize code).map Prod.snd).flatten = code.data := by
  unfold tokenize
  rw [List.map_map]
  have h : (Prod.snd ∘ adjustToken) = (Prod.snd : TokType × List Char → List Char) :=
    funext fun t => rfl
  rw [h, groupByClass_flatten]

theorem lastDotIdx_of_not_mem (l : List Char) (h : '.' ∉ l) : lastDotIdx l = none := by
  induction l with
  | nil => rfl
  | cons c cs ih =>
    simp only [List.mem_cons, not_or] at h
    simp only [lastDotIdx, ih h.2]
    rw [if_neg (fun hc => h.1 hc.symm)]

theorem lastDotIdx_append_sep (s e : List Char) (he : '.' ∉ e) :
    lastDotIdx (s ++ '.' :: e) = some s.length := by
  induction s with
  | nil => simp [lastDotIdx, lastDotIdx_of_not_mem e he]
  | cons c cs ih => simp [lastDotIdx, ih]

theorem nameWithSuffix_replaces (s e sfx : List Char)
    (hs : s ≠ []) (he : e ≠ []) (hd : '.' ∉ e) :
    nameWithSuffix (s ++ '.' :: e) sfx = s ++ sfx := by
  have h1 : 0 < s.length := List.length_pos.mpr hs
  have h2 : s.length + 1 < (s ++ '.' :: e).length := by
    have h3 : 0 < e.length := List.length_pos.mpr he
    simp only [List.length_append, List.length_cons]
    omega
  simp only [nameWithSuffix, lastDotIdx_append_sep s e hd]
  rw [if_pos (by simp only [Bool.and_eq_true, decide_eq_true_eq]; exact ⟨h1, h2⟩)]
  rw [List.take_left]

theorem render_ne_empty (c n : String) : render c n ≠ "" := by
  intro h
  have h2 := congrArg String.length h
  simp only [render, htmlTemplate, String.length_append] at h2
  have h0 : 0 < tmpl0.length := by decide
  have he : ("" : String).length = 0 := rfl
  rw [he] at h2
  omega

/-! ## Claim theorems -/

/-- C1: for every fixed source text and display name, the render transform of
`generate_html` produces byte-identical output on two calls: the written HTML
is the same value `render c (basename p)` no matter which filesystem state
(hidden state) the call runs in, so the result depends only on the input text
and the file name. -/
theorem generate_html_deterministic (fs1 fs2 : FS) (p X c : String)
    (h1 : fsRead fs1 p = some c) (h2 : fsRead fs2 p = some c) :
    ∃ html, html = render c (basename p) ∧
      generate_html fs1 p (some X) = .ok (fsWrite fs1 X html, X) ∧
      generate_html fs2 p (some X) = .ok (fsWrite fs2 X html, X) := by
  refine ⟨render c (basename p), rfl, ?_, ?_⟩ <;> simp [generate_html, h1, h2]

/-- Witness for C1 at a concrete input: the same file content read out of two
different filesystem states yields the same written HTML. -/
theorem generate_html_deterministic_witness :
    ∃ html, html = render "x = 1\n" (basename "a.py") ∧
      generate_html [("a.py", "x = 1\n")] "a.py" (some "out.html")
        = .ok (fsWrite [("a.py", "x = 1\n")] "out.html" html, "out.html") ∧
      generate_html [("b.txt", "zz"), ("a.py", "x = 1\n")] "a.py" (some "out.html")
        = .ok (fsWrite [("b.txt", "zz"), ("a.py", "x = 1\n")] "out.html" html, "out.html") :=
  generate_html_deterministic [("a.py", "x = 1\n")] [("b.txt", "zz"), ("a.py", "x = 1\n")]
    "a.py" "out.html" "x = 1\n" (by decide) (by decide)

/-- C2: for every UTF-8-decodable input text - the empty string included -
the render transform is a total function (it cannot throw), its result is
non-empty, the result contains the code region `<div class="code-wrapper">`,
and the modelled lexer categorizes every span of the input (unrecognized
spans fall back to the `err` category rather than being dropped), so the
token spans concatenate back to the whole input. -/
theorem render_total_nonempty_code_region (sourceText displayName : String) :
    render sourceText displayName ≠ "" ∧
    (∃ pre post, render sourceText displayName
      = pre ++ "<div class=\"code-wrapper\">" ++ post) ∧
    ((tokenize sourceText).map Prod.snd).flatten = sourceText.data := by
  refine ⟨render_ne_empty _ _, ?_, tokenize_flatten _⟩
  have ht3 : tmpl3 = "</div>\n        " ++ "<div class=\"code-wrapper\">" ++ "\n            " := by
    decide
  refine ⟨tmpl0 ++ displayName ++ tmpl1 ++ MONOKAI_CSS ++ tmpl2 ++ displayName
      ++ "</div>\n        ",
    "\n            " ++ pygmentsHighlight sourceText ++ tmpl4, ?_⟩
  show tmpl0 ++ displayName ++ tmpl1 ++ MONOKAI_CSS ++ tmpl2 ++ displayName ++ tmpl3
      ++ pygmentsHighlight sourceText ++ tmpl4 = _
  rw [ht3]
  simp only [String.append_assoc]

/-- C3: with no explicit output path the produced file path is the input path
with its extension replaced by `.html` (computed exactly as
`Path(input).with_suffix(".html")` does, e.g. `foo/bar.py` yields
`foo/bar.html`, and on any name of the form `stem.ext` the extension is
replaced); with an explicit output path `X` the produced file path is
exactly `X`. -/
theorem output_path_derivation :
    (∀ (fs : FS) (p c out : String), fsRead fs p = some c →
      pathWithSuffix p ".html" = some out →
      generate_html fs p none = .ok (fsWrite fs out (render c (basename p)), out)) ∧
    (∀ (fs : FS) (p X c : String), fsRead fs p = some c →
      generate_html fs p (some X) = .ok (fsWrite fs X (render c (basename p)), X)) ∧
    pathWithSuffix "foo/bar.py" ".html" = some "foo/bar.html" ∧
    (∀ s e sfx : List Char, s ≠ [] → e ≠ [] → '.' ∉ e →
      nameWithSuffix (s ++ '.' :: e) sfx = s ++ sfx) := by
  refine ⟨?_, ?_, by decide, nameWithSuffix_replaces⟩
  · intro fs p c out h1 h2
    simp [generate_html, h1, h2]
  · intro fs p X c h1
    simp [generate_html, h1]

/-- Witness for C3 at concrete inputs: `foo/bar.py` derives `foo/bar.html`
when no output path is supplied, an explicit `custom.out` is used verbatim,
and the name-level suffix surgery replaces `".py"` by `".html"`. -/
theorem output_path_derivation_witness :
    generate_html [("foo/bar.py", "pass")] "foo/bar.py" none
      = .ok (fsWrite [("foo/bar.py", "pass")] "foo/bar.html"
          (render "pass" (basename "foo/bar.py")), "foo/bar.html") ∧
    generate_html [("foo/bar.py", "pass")] "foo/bar.py" (some "custom.out")
      = .ok (fsWrite [("foo/bar.py", "pass")] "custom.out"
          (render "pass" (basename "foo/bar.py")), "custom.out") ∧
    nameWithSuffix ("bar".data ++ '.' :: "py".data) ".html".data
      = "bar".data ++ ".html".data :=
  ⟨output_path_derivation.1 [("foo/bar.py", "pass")] "foo/bar.py" "pass" "foo/bar.html"
      (by decide) (by decide),
   output_path_derivation.2.1 [("foo/bar.py", "pass")] "foo/bar.py" "custom.out" "pass"
      (by decide),
   output_path_derivation.2.2.2 "bar".data "py".data ".html".data
      (by decide) (by decide) (by decide)⟩

/-- C4 counterexample: the display name is NOT HTML-escaped before
substitution.  At the concrete display name `a<b.py` the produced document
is the template with the raw name substituted verbatim into both the page
title and the file header, although its HTML-escaped form `a&lt;b.py`
differs from it. -/
theorem display_name_not_escaped :
    render "" "a<b.py"
      = tmpl0 ++ "a<b.py" ++ tmpl1 ++ MONOKAI_CSS ++ tmpl2 ++ "a<b.py" ++ tmpl3
          ++ pygmentsHighlight "" ++ tmpl4 ∧
    htmlEscape "a<b.py" = "a&lt;b.py" ∧
    ("a<b.py" : String) ≠ "a&lt;b.py" :=
  ⟨rfl, by decide, by decide⟩

/-- C4 amended: the display name is substituted into the document template
verbatim, with no HTML escaping, in both front ends; in particular the file
header is `<div class="file-header">` followed by the raw display name, so
reserved HTML characters in a file name reach the document unencoded. -/
theorem display_name_substituted_verbatim (sourceText displayName : String) :
    (∃ pre post, render sourceText displayName
      = pre ++ ("<div class=\"file-header\">" ++ displayName ++ "</div>") ++ post) ∧
    (∃ pre post, guiRender sourceText displayName
      = pre ++ ("<div class=\"file-header\">" ++ displayName ++ "</div>") ++ post) := by
  have ht2 : tmpl2
      = "\n    </style>\n</head>\n<body>\n    <div class=\"code-container\">\n        "
        ++ "<div class=\"file-header\">" := by decide
  have ht3 : tmpl3 = "</div>" ++ "\n        <div class=\"code-wrapper\">\n            " := by
    decide
  constructor
  · refine ⟨tmpl0 ++ displayName ++ tmpl1 ++ MONOKAI_CSS
        ++ "\n    </style>\n</head>\n<body>\n    <div class=\"code-container\">\n        ",
      "\n        <div class=\"code-wrapper\">\n            "
        ++ pygmentsHighlight sourceText ++ tmpl4, ?_⟩
    show tmpl0 ++ displayName ++ tmpl1 ++ MONOKAI_CSS ++ tmpl2 ++ displayName ++ tmpl3
        ++ pygmentsHighlight sourceText ++ tmpl4 = _
    rw [ht2, ht3]
    simp only [String.append_assoc]
  · refine ⟨tmpl0 ++ displayName ++ tmpl1 ++ guiMonokaiCss
        ++ "\n    </style>\n</head>\n<body>\n    <div class=\"code-container\">\n        ",
      "\n        <div class=\"code-wrapper\">\n            "
        ++ pygmentsHighlight sourceText ++ tmpl4, ?_⟩
    show tmpl0 ++ displayName ++ tmpl1 ++ guiMonokaiCss ++ tmpl2 ++ displayName ++ tmpl3
        ++ pygmentsHighlight sourceText ++ tmpl4 = _
    rw [ht2, ht3]
    simp only [String.append_assoc]

/-- C5 counterexample: the two `MONOKAI_CSS` string constants are not
identical character for character - the CLI copy annotates each
`.highlight` rule with a trailing CSS comment that the GUI copy lacks. -/
theorem monokai_css_copies_differ : MONOKAI_CSS ≠ guiMonokaiCss := by
  intro h
  have hd : joinLinesCh (monokaiCssLines.map String.data)
      = joinLinesCh (guiMonokaiCssLines.map String.data) := by
    rw [← joinLines_data, ← joinLines_data]
    exact congrArg String.data h
  have hlines := joinLinesCh_inj _ _ (by decide) (by decide) (by decide) hd
  have hne : monokaiCssLines.map String.data ≠ guiMonokaiCssLines.map String.data := by
    decide
  exact hne hlines

/-- C5 amended: the two `MONOKAI_CSS` constants differ textually (so the two
front ends do not produce byte-identical HTML), but only in CSS comments and
trailing blanks - line by line they normalize to the same rules - and both
front ends substitute their stylesheet into the one shared document
template, so the transforms agree in everything but the stylesheet text. -/
theorem monokai_css_equivalent_not_identical :
    MONOKAI_CSS ≠ guiMonokaiCss ∧
    monokaiCssLines.map normLine = guiMonokaiCssLines.map normLine ∧
    (∀ c n, render c n = htmlTemplate MONOKAI_CSS n (pygmentsHighlight c)) ∧
    (∀ c n, guiRender c n = htmlTemplate guiMonokaiCss n (pygmentsHighlight c)) := by
  refine ⟨?_, by decide, fun c n => rfl, fun c n => rfl⟩
  intro h
  have hd : joinLinesCh (monokaiCssLines.map String.data)
      = joinLinesCh (guiMonokaiCssLines.map String.data) := by
    rw [← joinLines_data, ← joinLines_data]
    exact congrArg String.data h
  have hlines := joinLinesCh_inj _ _ (by decide) (by decide) (by decide) hd
  have hne : monokaiCssLines.map String.data ≠ guiMonokaiCssLines.map String.data := by
    decide
  exact hne hlines

/-- C6: the CLI exits 1 and prints usage when no file argument is given;
exits 1 and prints the not-found message when the input path does not exist;
and on a readable input exits 0, prints a success message naming the output
path, and afterwards the derived output file exists with non-empty
content. -/
theorem cli_exit_codes :
    (∀ (fs : FS) (argv : List String), argv.length < 2 →
      Highlight.main fs argv
        = ⟨1, ["Usage: python highlight.py <path_to_file.py>",
               "Example: python highlight.py main.py"], fs⟩) ∧
    (∀ (fs : FS) (prog p : String), fsRead fs p = none →
      Highlight.main fs [prog, p]
        = ⟨1, ["[-] Error: " ++ ("File \x27" ++ p ++ "\x27 not found")], fs⟩) ∧
    (∀ (fs : FS) (prog p c out : String), fsRead fs p = some c →
      pathWithSuffix p ".html" = some out →
      (Highlight.main fs [prog, p]).exitCode = 0 ∧
      (Highlight.main fs [prog, p]).stdout
        = ["[+] HTML file successfully created: " ++ out,
           "[+] Open it in a browser to view"] ∧
      ∃ html, fsRead (Highlight.main fs [prog, p]).fs out = some html ∧ html ≠ "") := by
  refine ⟨?_, ?_, ?_⟩
  · intro fs argv h
    unfold Highlight.main
    rw [if_pos h]
  · intro fs prog p h
    simp [Highlight.main, generate_html, h]
  · intro fs prog p c out h1 h2
    have hmain : Highlight.main fs [prog, p]
        = ⟨0, ["[+] HTML file successfully created: " ++ out,
               "[+] Open it in a browser to view"],
           fsWrite fs out (render c (basename p))⟩ := by
      simp [Highlight.main, generate_html, h1, h2]
    rw [hmain]
    exact ⟨rfl, rfl, render c (basename p), fsRead_fsWrite_self fs out _,
      render_ne_empty c (basename p)⟩

/-- Witness for C6 at concrete inputs: usage on a bare invocation, the
not-found message on a missing path, and a successful conversion of
`foo/bar.py` in a one-file filesystem. -/
theorem cli_exit_codes_witness :
    Highlight.main [] ["highlight.py"]
      = ⟨1, ["Usage: python highlight.py <path_to_file.py>",
             "Example: python highlight.py main.py"], []⟩ ∧
    Highlight.main [] ["highlight.py", "ghost.py"]
      = ⟨1, ["[-] Error: " ++ ("File \x27" ++ "ghost.py" ++ "\x27 not found")], []⟩ ∧
    ((Highlight.main [("foo/bar.py", "pass")] ["highlight.py", "foo/bar.py"]).exitCode = 0 ∧
     (Highlight.main [("foo/bar.py", "pass")] ["highlight.py", "foo/bar.py"]).stdout
       = ["[+] HTML file successfully created: " ++ "foo/bar.html",
          "[+] Open it in a browser to view"] ∧
     ∃ html, fsRead (Highlight.main [("foo/bar.py", "pass")]
         ["highlight.py", "foo/bar.py"]).fs "foo/bar.html" = some html ∧ html ≠ "") :=
  ⟨cli_exit_codes.1 [] ["highlight.py"] (by decide),
   cli_exit_codes.2.1 [] "highlight.py" "ghost.py" (by decide),
   cli_exit_codes.2.2 [("foo/bar.py", "pass")] "highlight.py" "foo/bar.py" "pass"
     "foo/bar.html" (by decide) (by decide)⟩

/-- C7: on a missing input path the CLI conversion fails with its distinct
not-found error before anything is read or written - the filesystem the
caller continues with is unchanged - and the GUI front end catches the
not-found failure, leaves the filesystem unchanged, shows the distinct
error dialog, and returns to an idle state instead of crashing. -/
theorem missing_input_no_write :
    (∀ (fs : FS) (p : String) (o : Option String), fsRead fs p = none →
      generate_html fs p o
        = .error (.notFound ("File \x27" ++ p ++ "\x27 not found"))) ∧
    (∀ (fs : FS) (st : GuiState) (p : String), fsRead fs p = none →
      process_file fs st p
        = (fs, ⟨"Error: file not found"⟩, [.critical "Error" "File not found"])) := by
  constructor
  · intro fs p o h
    simp [generate_html, h]
  · intro fs st p h
    simp [process_file, gui_generate_html, h]

/-- Witness for C7 at a concrete missing path: both front ends report the
not-found condition and the (empty) filesystem stays untouched. -/
theorem missing_input_no_write_witness :
    generate_html [("other.py", "x")] "ghost.py" none
      = .error (.notFound ("File \x27" ++ "ghost.py" ++ "\x27 not found")) ∧
    process_file [("other.py", "x")] ⟨"Ready"⟩ "ghost.py"
      = ([("other.py", "x")], ⟨"Error: file not found"⟩,
         [.critical "Error" "File not found"]) :=
  ⟨missing_input_no_write.1 [("other.py", "x")] "ghost.py" none (by decide),
   missing_input_no_write.2 [("other.py", "x")] ⟨"Ready"⟩ "ghost.py" (by decide)⟩

/-- C8: dropping a file whose path does not end in `.py` runs no conversion
and performs zero filesystem writes - the filesystem and the window state
are returned unchanged - while a warning dialog is shown. -/
theorem drop_rejects_wrong_extension (fs : FS) (st : GuiState) (path : String)
    (rest : List String) (h : endswith path ".py" = false) :
    dropEvent fs st (path :: rest)
      = (fs, st, [.warning "Error" "Please select a file with .py extension"]) := by
  simp [dropEvent, h]

/-- Witness for C8 at a concrete dropped file `notes.txt`. -/
theorem drop_rejects_wrong_extension_witness :
    dropEvent [("notes.txt", "hello")] ⟨"Ready"⟩ ["notes.txt"]
      = ([("notes.txt", "hello")], ⟨"Ready"⟩,
         [.warning "Error" "Please select a file with .py extension"]) :=
  drop_rejects_wrong_extension [("notes.txt", "hello")] ⟨"Ready"⟩ "notes.txt" []
    (by decide)

/-- C9: the renderer is a pure function of (source text, display name) whose
value is the HTML text itself: whenever `generate_html` succeeds, the new
filesystem is exactly the old one with the single output file written to
`render`, and every other path reads as before - all file input/output
happens in the front-end wrapper, none in the render transform. -/
theorem render_pure_no_other_io (fs : FS) (p c : String) (o : Option String)
    (res : FS × String) (q : String)
    (hread : fsRead fs p = some c)
    (hok : generate_html fs p o = .ok res)
    (hq : q ≠ res.2) :
    res.1 = fsWrite fs res.2 (render c (basename p)) ∧
    fsRead res.1 q = fsRead fs q := by
  cases o with
  | some out =>
    have hg : generate_html fs p (some out)
        = .ok (fsWrite fs out (render c (basename p)), out) := by
      simp [generate_html, hread]
    rw [hg] at hok
    injection hok with hok2
    subst hok2
    exact ⟨rfl, fsRead_fsWrite_ne fs out q _ hq⟩
  | none =>
    cases hws : pathWithSuffix p ".html" with
    | none =>
      have hg : generate_html fs p none = .error (.processingError "empty name") := by
        simp [generate_html, hread, hws]
      rw [hg] at hok
      exact Except.noConfusion hok
    | some out =>
      have hg : generate_html fs p none
          = .ok (fsWrite fs out (render c (basename p)), out) := by
        simp [generate_html, hread, hws]
      rw [hg] at hok
      injection hok with hok2
      subst hok2
      exact ⟨rfl, fsRead_fsWrite_ne fs out q _ hq⟩

/-- Witness for C9 at a concrete conversion: the new filesystem
 is the old one plus the single written output, and the input file itself
reads back unchanged. -/
theorem render_pure_no_other_io_witness :
    (fsWrite [("a.py", "pass")] "a.html" (render "pass" (basename "a.py")), "a.html").1
      = fsWrite [("a.py", "pass")] "a.html"
          (render "pass" (basename "a.py")) ∧
    fsRead (fsWrite [("a.py", "pass")] "a.html"
        (render "pass" (basename "a.py")), "a.html").1 "a.py"
      = fsRead [("a.py", "pass")] "a.py" :=
  render_pure_no_other_io [("a.py", "pass")] "a.py" "pass" none
    (fsWrite [("a.py", "pass")] "a.html" (render "pass" (basename "a.py")), "a.html")
    "a.py" (by decide) (by rfl) (by decide)

/-- C10: when a file already exists at the derived output path,
`generate_html` silently overwrites it: the conversion succeeds with no
prompt or error, and afterwards the output file reads back as exactly the
rendered HTML document, whatever it contained before. -/
theorem output_overwrites_existing (fs : FS) (p c old out : String)
    (hin : fsRead fs p = some c) (hout : pathWithSuffix p ".html" = some out)
    (_hold : fsRead fs out = some old) :
    generate_html fs p none = .ok (fsWrite fs out (render c (basename p)), out) ∧
    fsRead (fsWrite fs out (render c (basename p))) out
      = some (render c (basename p)) :=
  ⟨by simp [generate_html, hin, hout], fsRead_fsWrite_self fs out _⟩

/-- Witness for C10 at a concrete filesystem where `a.html` already holds
stale content before `a.py` is converted. -/
theorem output_overwrites_existing_witness :
    generate_html [("a.py", "pass"), ("a.html", "OLD")] "a.py" none
      = .ok (fsWrite [("a.py", "pass"), ("a.html", "OLD")] "a.html"
          (render "pass" (basename "a.py")), "a.html") ∧
    fsRead (fsWrite [("a.py", "pass"), ("a.html", "OLD")] "a.html"
        (render "pass" (basename "a.py"))) "a.html"
      = some (render "pass" (basename "a.py")) :=
  output_overwrites_existing [("a.py", "pass"), ("a.html", "OLD")] "a.py" "pass" "OLD"
    "a.html" (by decide) (by decide) (by decide)
